import Mathlib

/-!
Shallow embedding of `src/main.rs` (the fak-opacity window monitor) and
verification of its specified properties.

Modelling conventions:
- Rust `String`s are modelled as `List Char`; Rust's substring test
  `str::contains` is the executable `containsSub`.
- A Windows `HWND` is an opaque equality-comparable identifier, modelled
  as `Nat`.
- `Instant` timestamps are modelled as `Int` milliseconds, so that the
  constructor's `Instant::now() - Duration::from_secs(1)` is ordinary
  subtraction.
- The `HashMap<String, String>` keyword caches are modelled as
  association lists with lookup `cacheGet`; a failing lookup followed by
  `.unwrap()` (a panic) is modelled by propagating `none`, so the two
  classifier functions return `Option Bool` (`none` = panic).
- OS calls are modelled as explicit inputs: each loop tick receives the
  current time, the foreground window handle, the result the OS would
  give `EnumWindows`, and the value `ShowWindow` would return for each
  handle.
-/

/-- Rust `String`, modelled as a list of characters. -/
abbrev Str := List Char

/-- Rust `str::to_lowercase`, modelled character-wise. -/
def lowerStr (s : Str) : Str := s.map Char.toLower

/-- Rust `str::contains(needle)`: `needle` occurs as a contiguous substring
of `hay`. -/
def containsSub (needle hay : Str) : Bool :=
  match hay with
  | [] => needle.isEmpty
  | _ :: t => needle.isPrefixOf hay || containsSub needle t

/-- `struct WindowInfo { hwnd, title, class_name }` (main.rs lines 14-19). -/
structure WindowInfo where
  hwnd : Nat
  title : Str
  class_name : Str
deriving DecidableEq, Repr

/-- Failure of the OS window-enumeration call (`EnumWindows` returning an
error, propagated as `Box<dyn Error>`). -/
inductive EnumError where
  | enumFailed : EnumError
deriving DecidableEq, Repr

/-- Failure of a minimize actuation. `minimize_window` never constructs
this: it discards the `ShowWindow` result. -/
inductive ActuationError where
  | actFailed : ActuationError
deriving DecidableEq, Repr

/-- `HashMap::get` on the keyword caches, modelled on an association list. -/
def cacheGet (cache : List (Str × Str)) (k : Str) : Option Str :=
  (cache.find? (fun p => p.1 == k)).map (fun p => p.2)

/-- The cache construction in `monitor_windows` (main.rs lines 137-145):
`keywords.iter().map(|k| (k.clone(), k.to_lowercase())).collect()`. -/
def mkKeywordCache (kws : List Str) : List (Str × Str) :=
  kws.map (fun k => (k, lowerStr k))

/-- Rust `Iterator::any` where the body may panic (modelled as `none`):
stops at the first `true`, propagates the first panic reached. -/
def anyUnwrap {α : Type} (f : α → Option Bool) : List α → Option Bool
  | [] => some false
  | x :: xs =>
    match f x with
    | none => none
    | some true => some true
    | some false => anyUnwrap f xs

/-- `is_target_window` (main.rs lines 103-109). `none` models the panic of
`keyword_cache.get(keyword).unwrap()` on a keyword absent from the cache. -/
def is_target_window (w : WindowInfo) (target_keywords : List Str)
    (keyword_cache : List (Str × Str)) : Option Bool :=
  let title_lower := lowerStr w.title
  anyUnwrap
    (fun keyword =>
      (cacheGet keyword_cache keyword).map
        (fun keyword_lower => containsSub keyword_lower title_lower))
    target_keywords

/-- The literal `"Program Manager"`. -/
def programManagerStr : Str := "Program Manager".data

/-- The literal `"Desktop"`. -/
def desktopStr : Str := "Desktop".data

/-- The literal `"Shell_TrayWnd"`. -/
def shellTrayStr : Str := "Shell_TrayWnd".data

/-- The early-return condition of `should_skip_window` (main.rs lines
114-117): empty title, or a system window. -/
def sysSkip (w : WindowInfo) : Bool :=
  w.title.isEmpty ||
  containsSub programManagerStr w.title ||
  containsSub desktopStr w.title ||
  containsSub shellTrayStr w.class_name

/-- `should_skip_window` (main.rs lines 112-127). `none` models the panic
of `ignored_cache.get(keyword).unwrap()` on an absent keyword. -/
def should_skip_window (w : WindowInfo) (ignored_keywords : List Str)
    (ignored_cache : List (Str × Str)) : Option Bool :=
  if sysSkip w then
    some true
  else
    let title_lower := lowerStr w.title
    anyUnwrap
      (fun keyword =>
        (cacheGet ignored_cache keyword).map
          (fun keyword_lower => containsSub keyword_lower title_lower))
      ignored_keywords

/-- The composite behaviour of `is_target_window` when called, as
`monitor_windows` does, with the cache built from the same keyword list:
the lookups all succeed and the test is a case-insensitive any-substring
check. `is_target_window_mkCache` proves this equal to the source
function. -/
def isTargetB (w : WindowInfo) (target_keywords : List Str) : Bool :=
  target_keywords.any (fun k => containsSub (lowerStr k) (lowerStr w.title))

/-- The composite behaviour of `should_skip_window` with the cache built
from the same ignored-keyword list; `should_skip_window_mkCache` proves
this equal to the source function. -/
def shouldSkipB (w : WindowInfo) (ignored_keywords : List Str) : Bool :=
  sysSkip w ||
  ignored_keywords.any (fun k => containsSub (lowerStr k) (lowerStr w.title))

theorem anyUnwrap_eq_any {α : Type} (f : α → Option Bool) (g : α → Bool) :
    ∀ (l : List α), (∀ x ∈ l, f x = some (g x)) → anyUnwrap f l = some (l.any g)
  | [], _ => rfl
  | x :: xs, h => by
    have hx : f x = some (g x) := h x (List.mem_cons_self x xs)
    have hxs : anyUnwrap f xs = some (xs.any g) :=
      anyUnwrap_eq_any f g xs (fun y hy => h y (List.mem_cons_of_mem x hy))
    simp only [anyUnwrap, hx, List.any_cons]
    cases hgx : g x with
    | true => simp
    | false => simp [hxs]

theorem anyUnwrap_isSome {α : Type} (f : α → Option Bool) :
    ∀ (l : List α), (∀ x ∈ l, (f x).isSome = true) → (anyUnwrap f l).isSome = true
  | [], _ => rfl
  | x :: xs, h => by
    have hx : (f x).isSome = true := h x (List.mem_cons_self x xs)
    have hxs : (anyUnwrap f xs).isSome = true :=
      anyUnwrap_isSome f xs (fun y hy => h y (List.mem_cons_of_mem x hy))
    rcases hfx : f x with _ | b
    · rw [hfx] at hx; simp at hx
    · cases b with
      | true => simp [anyUnwrap, hfx]
      | false => simp [anyUnwrap, hfx, hxs]

theorem cacheGet_mkKeywordCache (kws : List Str) (k : Str) (hk : k ∈ kws) :
    cacheGet (mkKeywordCache kws) k = some (lowerStr k) := by
  induction kws with
  | nil => cases hk
  | cons a as ih =>
    by_cases hak : a = k
    · subst hak
      simp [cacheGet, mkKeywordCache, List.find?]
    · have hne : (a == k) = false := beq_eq_false_iff_ne.mpr hak
      have hmem : k ∈ as := by
        rcases List.mem_cons.mp hk with h | h
        · exact absurd h.symm hak
        · exact h
      have := ih hmem
      simpa [cacheGet, mkKeywordCache, List.find?, hne] using this

theorem is_target_window_mkCache (w : WindowInfo) (tk : List Str) :
    is_target_window w tk (mkKeywordCache tk) = some (isTargetB w tk) := by
  unfold is_target_window isTargetB
  apply anyUnwrap_eq_any
  intro k hk
  rw [cacheGet_mkKeywordCache tk k hk]
  rfl

theorem should_skip_window_mkCache (w : WindowInfo) (ik : List Str) :
    should_skip_window w ik (mkKeywordCache ik) = some (shouldSkipB w ik) := by
  unfold should_skip_window shouldSkipB
  cases hs : sysSkip w with
  | true => simp
  | false =>
    rw [if_neg (by decide)]
    simp only [Bool.false_or]
    apply anyUnwrap_eq_any
    intro k hk
    rw [cacheGet_mkKeywordCache ik k hk]
    rfl

/-- `cache_duration` = `Duration::from_millis(50)` (main.rs line 33),
in milliseconds. -/
def cache_duration : Int := 50

/-- `struct WindowCache { windows, last_update, cache_duration }`
(main.rs lines 22-26); `cache_duration` is the constant above. -/
structure WindowCache where
  windows : List WindowInfo
  last_update : Int
deriving DecidableEq, Repr

/-- `WindowCache::new` (main.rs lines 29-35), at creation time `t0`:
`last_update = Instant::now() - Duration::from_secs(1)` forces the first
call to miss. -/
def WindowCache.new (t0 : Int) : WindowCache :=
  { windows := [], last_update := t0 - 1000 }

/-- `WindowCache::get_windows` (main.rs lines 37-43) at current time
`now`. `enum` is what `get_all_windows_uncached()` would return if
called. The returned `Bool` records whether the enumeration was invoked
(the cache missed). -/
def WindowCache.get_windows (c : WindowCache) (now : Int)
    (enum : Except EnumError (List WindowInfo)) :
    Except EnumError (List WindowInfo × WindowCache × Bool) :=
  if now - c.last_update > cache_duration then
    match enum with
    | .error e => .error e
    | .ok ws => .ok (ws, { windows := ws, last_update := now }, true)
  else
    .ok (c.windows, c, false)

/-- `minimize_window` (main.rs lines 95-100). `show_window_ret` is the
value the OS call `ShowWindow(hwnd, SW_MINIMIZE)` would return; the
source discards it (`let _ = ShowWindow(...)`) and returns `Ok(())`
unconditionally. -/
def minimize_window (show_window_ret : Bool) (hwnd : Nat) :
    Except ActuationError Unit :=
  Except.ok ()

/-- The body of the minimize loop (main.rs lines 181-188): on `Err` log
and keep the count (the `eprintln!` branch), on `Ok` record the window
as minimized and increment the count. -/
def minimizeStep (show_window_ret : Nat → Bool)
    (acc : List WindowInfo × Nat) (w : WindowInfo) : List WindowInfo × Nat :=
  match minimize_window (show_window_ret w.hwnd) w.hwnd with
  | .error _ => acc
  | .ok _ => (acc.1 ++ [w], acc.2 + 1)

/-- The minimize pass of `monitor_windows` (main.rs lines 180-188):
returns the list of windows reported as minimized and the
`minimized_count`. -/
def minimizePass (show_window_ret : Nat → Bool) (ws : List WindowInfo) :
    List WindowInfo × Nat :=
  ws.foldl (minimizeStep show_window_ret) ([], 0)

/-- The filter of main.rs lines 170-177: windows to minimize are those
whose handle differs from the active one, that are not targets, and that
are not skipped. Uses the composite classifiers (`monitor_windows`
always passes the caches built by `mkKeywordCache` from the same
lists). -/
def windows_to_minimize (ws : List WindowInfo) (current_active : Nat)
    (target_keywords ignored_keywords : List Str) : List WindowInfo :=
  ws.filter (fun w =>
    w.hwnd != current_active &&
    !(isTargetB w target_keywords) &&
    !(shouldSkipB w ignored_keywords))

/-- The mutable state of `monitor_windows`' loop (main.rs lines 147-148):
`last_active_window` and the window cache. -/
structure LoopState where
  last_active_window : Option Nat
  window_cache : WindowCache
deriving DecidableEq, Repr

/-- The OS-provided inputs consumed by one iteration of the loop: the
current time, the `GetForegroundWindow()` result, the result
`get_all_windows_uncached()` would produce, and the `ShowWindow` return
value per handle. -/
structure TickInput where
  now : Int
  foreground : Nat
  enumResult : Except EnumError (List WindowInfo)
  show_window_ret : Nat → Bool

/-- Observable outcome of one loop iteration: the successor state, the
windows reported as minimized with the `minimized_count`, whether the
enumeration ran, and whether the focused window was classified
(`is_target_window` evaluated on it). -/
structure TickOutput where
  state : LoopState
  minimized : List WindowInfo
  minimized_count : Nat
  enumerated : Bool
  classified : Bool
deriving DecidableEq, Repr

/-- One iteration of the `loop` in `monitor_windows` (main.rs lines
150-203), up to the final sleep. An `Except.error` is the `?` at line
159 propagating an enumeration failure out of `monitor_windows`. -/
def tick (target_keywords ignored_keywords : List Str) (s : LoopState)
    (i : TickInput) : Except EnumError TickOutput :=
  if s.last_active_window = some i.foreground then
    .ok { state := s, minimized := [], minimized_count := 0,
          enumerated := false, classified := false }
  else
    match s.window_cache.get_windows i.now i.enumResult with
    | .error e => .error e
    | .ok (ws, cache2, enumerated) =>
      let s2 : LoopState :=
        { last_active_window := some i.foreground, window_cache := cache2 }
      match ws.find? (fun w => w.hwnd == i.foreground) with
      | none =>
        .ok { state := s2, minimized := [], minimized_count := 0,
              enumerated := enumerated, classified := false }
      | some active_window =>
        if isTargetB active_window target_keywords then
          let pass := minimizePass i.show_window_ret
            (windows_to_minimize ws i.foreground target_keywords ignored_keywords)
          .ok { state := s2, minimized := pass.1, minimized_count := pass.2,
                enumerated := enumerated, classified := true }
        else
          .ok { state := s2, minimized := [], minimized_count := 0,
                enumerated := enumerated, classified := true }

/-- The `loop` of `monitor_windows` run over a finite trace of tick
inputs. An `Except.error` means `monitor_windows` returned `Err`, which
`main` (main.rs line 237) propagates: the process terminates. -/
def run (target_keywords ignored_keywords : List Str) :
    LoopState → List TickInput → Except EnumError LoopState
  | s, [] => .ok s
  | s, i :: rest =>
    match tick target_keywords ignored_keywords s i with
    | .error e => .error e
    | .ok o => run target_keywords ignored_keywords o.state rest

/-- The initial loop state (main.rs lines 147-148): no last active
window, fresh cache created at time `t0`. -/
def initialState (t0 : Int) : LoopState :=
  { last_active_window := none, window_cache := WindowCache.new t0 }

instance {ε α : Type} [DecidableEq ε] [DecidableEq α] :
    DecidableEq (Except ε α) := fun x y =>
  match x, y with
  | .ok a, .ok b =>
    if h : a = b then .isTrue (by rw [h]) else .isFalse (by simp [h])
  | .error a, .error b =>
    if h : a = b then .isTrue (by rw [h]) else .isFalse (by simp [h])
  | .ok _, .error _ => .isFalse (by simp)
  | .error _, .ok _ => .isFalse (by simp)

/-- Case analysis for a successful `get_windows` call: either the cache
missed (elapsed time exceeded `cache_duration`) and the enumeration
result was stored, or it hit and everything is unchanged. -/
theorem get_windows_ok_cases {c : WindowCache} {now : Int}
    {enum : Except EnumError (List WindowInfo)} {ws : List WindowInfo}
    {c2 : WindowCache} {b : Bool}
    (h : c.get_windows now enum = .ok (ws, c2, b)) :
    (now - c.last_update > cache_duration ∧ enum = .ok ws ∧
      c2 = { windows := ws, last_update := now } ∧ b = true)
    ∨ (now - c.last_update ≤ cache_duration ∧ ws = c.windows ∧ c2 = c ∧
      b = false) := by
  unfold WindowCache.get_windows at h
  split at h
  · rename_i hcond
    cases henum : enum with
    | error e => rw [henum] at h; cases h
    | ok ws0 =>
      rw [henum] at h
      injection h with h2
      injection h2 with hws h3
      injection h3 with hc2 hb
      subst hws
      exact Or.inl ⟨hcond, rfl, hc2.symm, hb.symm⟩
  · rename_i hcond
    injection h with h2
    injection h2 with hws h3
    injection h3 with hc2 hb
    exact Or.inr ⟨by omega, hws.symm, hc2.symm, hb.symm⟩

theorem minimizePass_foldl (osr : Nat → Bool) (ws : List WindowInfo)
    (acc : List WindowInfo) (n : Nat) :
    ws.foldl (minimizeStep osr) (acc, n) = (acc ++ ws, n + ws.length) := by
  induction ws generalizing acc n with
  | nil => simp
  | cons w t ih =>
    simp only [List.foldl_cons, minimizeStep, minimize_window]
    rw [ih]
    simp only [Prod.mk.injEq]
    constructor
    · simp
    · simp; omega

theorem minimizePass_eq (osr : Nat → Bool) (ws : List WindowInfo) :
    minimizePass osr ws = (ws, ws.length) := by
  unfold minimizePass
  rw [minimizePass_foldl]
  simp

/-- Claim C10: `minimize_window` discards the OS `ShowWindow` result and
returns `Ok(())` for every handle, so the error branch of the
minimization pass is unreachable: every minimize-eligible window is
reported as minimized and counted, whatever the OS outcome, and no
actuation failure is ever observed. -/
theorem claim_C10 :
    (∀ (show_window_ret : Bool) (hwnd : Nat),
      minimize_window show_window_ret hwnd = Except.ok ())
    ∧ (∀ (show_window_ret : Nat → Bool) (ws : List WindowInfo),
        minimizePass show_window_ret ws = (ws, ws.length)) :=
  ⟨fun _ _ => rfl, minimizePass_eq⟩

/-- Claim C7: on a tick where the focused handle equals the previously
recorded one, the loop does nothing: no enumeration, no classification,
no actuation, and the state (focus record and cache) is returned
unchanged. -/
theorem claim_C7 (target_keywords ignored_keywords : List Str)
    (s : LoopState) (i : TickInput)
    (h : s.last_active_window = some i.foreground) :
    tick target_keywords ignored_keywords s i =
      .ok { state := s, minimized := [], minimized_count := 0,
            enumerated := false, classified := false } := by
  unfold tick
  rw [if_pos h]

theorem claim_C7_witness :
    tick [] [] ⟨some 7, ⟨[], 0⟩⟩ ⟨123, 7, Except.ok [], fun _ => true⟩ =
      .ok { state := ⟨some 7, ⟨[], 0⟩⟩, minimized := [], minimized_count := 0,
            enumerated := false, classified := false } :=
  claim_C7 [] [] ⟨some 7, ⟨[], 0⟩⟩ ⟨123, 7, Except.ok [], fun _ => true⟩ rfl

/-- Claim C8: on a tick where the focus changed, enumeration succeeds,
and the new foreground handle matches no record of the snapshot, the
loop still records the new focused handle, performs no classification
and no actuation, and does not fail. -/
theorem claim_C8 (target_keywords ignored_keywords : List Str)
    (s : LoopState) (i : TickInput) (ws : List WindowInfo)
    (cache2 : WindowCache) (b : Bool)
    (hfocus : s.last_active_window ≠ some i.foreground)
    (henum : s.window_cache.get_windows i.now i.enumResult = .ok (ws, cache2, b))
    (hmiss : ∀ w ∈ ws, w.hwnd ≠ i.foreground) :
    tick target_keywords ignored_keywords s i =
      .ok { state := ⟨some i.foreground, cache2⟩, minimized := [],
            minimized_count := 0, enumerated := b, classified := false } := by
  have hfind : ws.find? (fun w => w.hwnd == i.foreground) = none := by
    rw [List.find?_eq_none]
    intro w hw
    simpa using hmiss w hw
  simp only [tick, if_neg hfocus, henum, hfind]

theorem claim_C8_witness :
    tick [] [] ⟨none, WindowCache.new 0⟩
        ⟨100, 5, Except.ok [⟨6, "Notepad".data, []⟩], fun _ => true⟩ =
      .ok { state := ⟨some 5, ⟨[⟨6, "Notepad".data, []⟩], 100⟩⟩,
            minimized := [], minimized_count := 0, enumerated := true,
            classified := false } :=
  claim_C8 [] [] ⟨none, WindowCache.new 0⟩
    ⟨100, 5, Except.ok [⟨6, "Notepad".data, []⟩], fun _ => true⟩
    [⟨6, "Notepad".data, []⟩] ⟨[⟨6, "Notepad".data, []⟩], 100⟩ true
    (by decide) (by decide) (by decide)

/-- Claim C3 (counterexample): with a snapshot already cached and focus
recorded (state from an earlier successful tick), an enumeration failure
on a later tick does not abort only that iteration: the tick returns the
error, and `run` over that tick and a following one returns the error —
`monitor_windows` exits its loop, and `main` propagates, so the
process terminates instead of continuing to the next tick. -/
theorem claim_C3_counterexample :
    (tick ["Trae".data] ["WhatsApp".data]
        ⟨some 1, ⟨[⟨1, "Notepad".data, "Notepad".data⟩], 0⟩⟩
        ⟨100, 2, Except.error EnumError.enumFailed, fun _ => true⟩ =
      Except.error EnumError.enumFailed)
    ∧ (run ["Trae".data] ["WhatsApp".data]
        ⟨some 1, ⟨[⟨1, "Notepad".data, "Notepad".data⟩], 0⟩⟩
        [⟨100, 2, Except.error EnumError.enumFailed, fun _ => true⟩,
         ⟨200, 3, Except.ok [], fun _ => true⟩] =
      Except.error EnumError.enumFailed) := by
  exact ⟨rfl, rfl⟩

/-- Claim C3 (amended): if the OS enumeration fails on a tick whose focus
changed (the only ticks that consult the cache) and the cache is stale
enough to re-enumerate, the error propagates out of the loop — the tick
returns `Except.error`, and the whole `run` from that tick on returns
`Except.error` (so `monitor_windows` returns `Err` and `main`'s `?`
terminates the process) — regardless of whether a snapshot already
existed. Enumeration failure is never tolerated mid-run. -/
theorem claim_C3_amended (target_keywords ignored_keywords : List Str)
    (s : LoopState) (i : TickInput) (rest : List TickInput) (e : EnumError)
    (hfocus : s.last_active_window ≠ some i.foreground)
    (henum : s.window_cache.get_windows i.now i.enumResult = .error e) :
    tick target_keywords ignored_keywords s i = .error e
    ∧ run target_keywords ignored_keywords s (i :: rest) = .error e := by
  have ht : tick target_keywords ignored_keywords s i = .error e := by
    simp only [tick, if_neg hfocus, henum]
  exact ⟨ht, by simp only [run, ht]⟩

theorem claim_C3_witness :
    tick [] [] ⟨some 9, ⟨[⟨9, "A".data, []⟩], 0⟩⟩
        ⟨500, 4, Except.error EnumError.enumFailed, fun _ => false⟩ =
      Except.error EnumError.enumFailed
    ∧ run [] [] ⟨some 9, ⟨[⟨9, "A".data, []⟩], 0⟩⟩
        [⟨500, 4, Except.error EnumError.enumFailed, fun _ => false⟩] =
      Except.error EnumError.enumFailed :=
  claim_C3_amended [] [] ⟨some 9, ⟨[⟨9, "A".data, []⟩], 0⟩⟩
    ⟨500, 4, Except.error EnumError.enumFailed, fun _ => false⟩ [] .enumFailed
    (by decide) (by decide)

/-- Claim C2: with the precomputed lowercase table built from the keyword
list (as `monitor_windows` builds it), `is_target_window` returns
`some true` iff some keyword's lowercase form occurs as a substring of
the lowercase title; and the result is unchanged under any change of
letter case in the title or the keywords (anything with the same
lowercase images). -/
theorem claim_C2 (w : WindowInfo) (target_keywords : List Str) :
    (is_target_window w target_keywords (mkKeywordCache target_keywords) =
        some true ↔
      ∃ k ∈ target_keywords,
        containsSub (lowerStr k) (lowerStr w.title) = true)
    ∧ (∀ (w2 : WindowInfo) (tk2 : List Str),
        lowerStr w2.title = lowerStr w.title →
        tk2.map lowerStr = target_keywords.map lowerStr →
        is_target_window w2 tk2 (mkKeywordCache tk2) =
          is_target_window w target_keywords (mkKeywordCache target_keywords)) := by
  constructor
  · rw [is_target_window_mkCache]
    simp [isTargetB, List.any_eq_true]
  · intro w2 tk2 ht hk
    rw [is_target_window_mkCache, is_target_window_mkCache]
    have hB : isTargetB w2 tk2 = isTargetB w target_keywords := by
      unfold isTargetB
      rw [ht]
      have h2 : tk2.any (fun k => containsSub (lowerStr k) (lowerStr w.title))
          = (tk2.map lowerStr).any
              (fun kl => containsSub kl (lowerStr w.title)) := by
        rw [List.any_map]
        rfl
      have h1 : target_keywords.any
            (fun k => containsSub (lowerStr k) (lowerStr w.title))
          = (target_keywords.map lowerStr).any
              (fun kl => containsSub kl (lowerStr w.title)) := by
        rw [List.any_map]
        rfl
      rw [h2, h1, hk]
    rw [hB]

theorem claim_C2_witness :
    is_target_window ⟨2, "trae editor".data, []⟩ ["TrAe".data]
        (mkKeywordCache ["TrAe".data]) =
      is_target_window ⟨1, "TRAE Editor".data, []⟩ ["trae".data]
        (mkKeywordCache ["trae".data]) :=
  (claim_C2 ⟨1, "TRAE Editor".data, []⟩ ["trae".data]).2
    ⟨2, "trae editor".data, []⟩ ["TrAe".data] (by decide) (by decide)

/-- Claim C5: `should_skip_window` returns `some true` whenever the title
contains the literal `"Program Manager"` or `"Desktop"`, or the class
name contains the literal `"Shell_TrayWnd"`, for every ignored-keyword
list (in particular the empty one) and every cache. -/
theorem claim_C5 (w : WindowInfo) (ignored_keywords : List Str)
    (ignored_cache : List (Str × Str))
    (h : containsSub programManagerStr w.title = true ∨
         containsSub desktopStr w.title = true ∨
         containsSub shellTrayStr w.class_name = true) :
    should_skip_window w ignored_keywords ignored_cache = some true := by
  have hs : sysSkip w = true := by
    unfold sysSkip
    rcases h with h | h | h <;> simp [h]
  unfold should_skip_window
  rw [if_pos hs]

theorem claim_C5_witness :
    should_skip_window ⟨1, "Program Manager".data, []⟩ [] [] = some true ∧
    should_skip_window ⟨2, "My Desktop Tools".data, []⟩ [] [] = some true ∧
    should_skip_window ⟨3, "Taskbar".data, "Shell_TrayWnd".data⟩ [] [] =
      some true :=
  ⟨claim_C5 ⟨1, "Program Manager".data, []⟩ [] [] (Or.inl (by decide)),
   claim_C5 ⟨2, "My Desktop Tools".data, []⟩ [] [] (Or.inr (Or.inl (by decide))),
   claim_C5 ⟨3, "Taskbar".data, "Shell_TrayWnd".data⟩ [] []
     (Or.inr (Or.inr (by decide)))⟩

/-- Claim C6: `should_skip_window` returns `some true` for every window
whose title is empty, regardless of the ignored-keyword list, the cache,
and the class name. -/
theorem claim_C6 (w : WindowInfo) (ignored_keywords : List Str)
    (ignored_cache : List (Str × Str)) (h : w.title = []) :
    should_skip_window w ignored_keywords ignored_cache = some true := by
  have hs : sysSkip w = true := by
    unfold sysSkip
    simp [h]
  unfold should_skip_window
  rw [if_pos hs]

theorem claim_C6_witness :
    should_skip_window ⟨1, [], "SomeClass".data⟩ ["WhatsApp".data] [] =
      some true :=
  claim_C6 ⟨1, [], "SomeClass".data⟩ ["WhatsApp".data] [] rfl

/-- Claim C9: when the cache maps every keyword of the supplied list —
as the tables `monitor_windows` builds with `mkKeywordCache` do — every
lookup inside `is_target_window` and `should_skip_window` succeeds, so
the `unwrap` panic (modelled as `none`) is unreachable; and a keyword
absent from the table makes the functions fail fast (`none`) rather
than silently matching nothing. -/
theorem claim_C9 (w : WindowInfo) (target_keywords ignored_keywords : List Str)
    (keyword_cache ignored_cache : List (Str × Str))
    (ht : ∀ k ∈ target_keywords, (cacheGet keyword_cache k).isSome = true)
    (hi : ∀ k ∈ ignored_keywords, (cacheGet ignored_cache k).isSome = true) :
    ((is_target_window w target_keywords keyword_cache).isSome = true
      ∧ (should_skip_window w ignored_keywords ignored_cache).isSome = true)
    ∧ (∀ k ∈ target_keywords,
        (cacheGet (mkKeywordCache target_keywords) k).isSome = true)
    ∧ (∀ (k : Str) (cache : List (Str × Str)), cacheGet cache k = none →
        is_target_window w [k] cache = none)
    ∧ (∀ (k : Str) (cache : List (Str × Str)), cacheGet cache k = none →
        sysSkip w = false → should_skip_window w [k] cache = none) := by
  refine ⟨⟨?_, ?_⟩, ?_, ?_, ?_⟩
  · unfold is_target_window
    apply anyUnwrap_isSome
    intro k hk
    obtain ⟨v, hv⟩ := Option.isSome_iff_exists.mp (ht k hk)
    rw [hv]
    rfl
  · unfold should_skip_window
    cases hs : sysSkip w with
    | true => rfl
    | false =>
      rw [if_neg (by decide)]
      apply anyUnwrap_isSome
      intro k hk
      obtain ⟨v, hv⟩ := Option.isSome_iff_exists.mp (hi k hk)
      rw [hv]
      rfl
  · intro k hk
    rw [cacheGet_mkKeywordCache target_keywords k hk]
    rfl
  · intro k cache hc
    simp [is_target_window, anyUnwrap, hc]
  · intro k cache hc hs
    unfold should_skip_window
    rw [if_neg (by rw [hs]; decide)]
    simp [anyUnwrap, hc]

theorem claim_C9_witness :
    (is_target_window ⟨1, "Notepad".data, []⟩ ["Trae".data]
        (mkKeywordCache ["Trae".data])).isSome = true
    ∧ (should_skip_window ⟨1, "Notepad".data, []⟩ ["WhatsApp".data]
        (mkKeywordCache ["WhatsApp".data])).isSome = true :=
  (claim_C9 ⟨1, "Notepad".data, []⟩ ["Trae".data] ["WhatsApp".data]
    (mkKeywordCache ["Trae".data]) (mkKeywordCache ["WhatsApp".data])
    (by decide) (by decide)).1

/-- Claim C1: the minimize-eligible set computed when the focused window
is a target contains exactly the snapshot records whose handle differs
from the focused one, that are not targets, and that are not skipped;
in particular it never contains the focused window, never a target, and
never a skipped window — each exclusion holding independently, also for
a window that is both skip-listed and target-matching; and the loop's
target branch minimizes exactly this set. -/
theorem claim_C1 (ws : List WindowInfo) (current_active : Nat)
    (target_keywords ignored_keywords : List Str) (w : WindowInfo) :
    (w ∈ windows_to_minimize ws current_active target_keywords ignored_keywords ↔
      w ∈ ws ∧ w.hwnd ≠ current_active ∧
      is_target_window w target_keywords (mkKeywordCache target_keywords) =
        some false ∧
      should_skip_window w ignored_keywords (mkKeywordCache ignored_keywords) =
        some false)
    ∧ (w.hwnd = current_active →
        w ∉ windows_to_minimize ws current_active target_keywords ignored_keywords)
    ∧ (is_target_window w target_keywords (mkKeywordCache target_keywords) =
        some true →
        w ∉ windows_to_minimize ws current_active target_keywords ignored_keywords)
    ∧ (should_skip_window w ignored_keywords (mkKeywordCache ignored_keywords) =
        some true →
        w ∉ windows_to_minimize ws current_active target_keywords ignored_keywords)
    ∧ (should_skip_window w ignored_keywords (mkKeywordCache ignored_keywords) =
        some true ∧
       is_target_window w target_keywords (mkKeywordCache target_keywords) =
        some true →
        w ∉ windows_to_minimize ws current_active target_keywords ignored_keywords)
    ∧ (∀ (s : LoopState) (i : TickInput) (cache2 : WindowCache) (b : Bool)
        (active_window : WindowInfo),
        s.last_active_window ≠ some i.foreground →
        s.window_cache.get_windows i.now i.enumResult = .ok (ws, cache2, b) →
        ws.find? (fun x => x.hwnd == i.foreground) = some active_window →
        isTargetB active_window target_keywords = true →
        tick target_keywords ignored_keywords s i =
          .ok { state := ⟨some i.foreground, cache2⟩,
                minimized := windows_to_minimize ws i.foreground
                  target_keywords ignored_keywords,
                minimized_count := (windows_to_minimize ws i.foreground
                  target_keywords ignored_keywords).length,
                enumerated := b, classified := true }) := by
  have hmem : w ∈ windows_to_minimize ws current_active target_keywords
        ignored_keywords ↔
      w ∈ ws ∧ w.hwnd ≠ current_active ∧
        isTargetB w target_keywords = false ∧
        shouldSkipB w ignored_keywords = false := by
    unfold windows_to_minimize
    rw [List.mem_filter]
    simp [and_assoc]
  have htgt : ∀ b, is_target_window w target_keywords
        (mkKeywordCache target_keywords) = some b ↔
      isTargetB w target_keywords = b := by
    intro b
    rw [is_target_window_mkCache]
    simp
  have hskip : ∀ b, should_skip_window w ignored_keywords
        (mkKeywordCache ignored_keywords) = some b ↔
      shouldSkipB w ignored_keywords = b := by
    intro b
    rw [should_skip_window_mkCache]
    simp
  refine ⟨?_, ?_, ?_, ?_, ?_, ?_⟩
  · rw [hmem]
    constructor
    · rintro ⟨h1, h2, h3, h4⟩
      exact ⟨h1, h2, (htgt false).mpr h3, (hskip false).mpr h4⟩
    · rintro ⟨h1, h2, h3, h4⟩
      exact ⟨h1, h2, (htgt false).mp h3, (hskip false).mp h4⟩
  · intro he hw
    exact absurd he (hmem.mp hw).2.1
  · intro htrue hw
    have := (hmem.mp hw).2.2.1
    rw [(htgt true).mp htrue] at this
    cases this
  · intro htrue hw
    have := (hmem.mp hw).2.2.2
    rw [(hskip true).mp htrue] at this
    cases this
  · intro htrue hw
    have := (hmem.mp hw).2.2.2
    rw [(hskip true).mp htrue.1] at this
    cases this
  · intro s i cache2 b active_window hfocus henum hfind htarget
    simp only [tick, if_neg hfocus, henum, hfind, if_pos htarget,
      minimizePass_eq]

theorem claim_C1_witness :
    -- end-to-end scenario A of the spec: snapshot {Trae - project,
    -- WhatsApp, Notepad, Program Manager}, focus on the Trae window:
    -- only Notepad is minimize-eligible, and the tick minimizes exactly it.
    ("Notepad".data ∈
      (windows_to_minimize
        [⟨1, "Trae - project".data, "C1".data⟩,
         ⟨2, "WhatsApp".data, "C2".data⟩,
         ⟨3, "Notepad".data, "C3".data⟩,
         ⟨4, "Program Manager".data, "C4".data⟩]
        1 ["Trae".data] ["WhatsApp".data]).map WindowInfo.title)
    ∧ ((⟨2, "WhatsApp".data, "C2".data⟩ : WindowInfo) ∉
        windows_to_minimize
          [⟨1, "Trae - project".data, "C1".data⟩,
           ⟨2, "WhatsApp".data, "C2".data⟩,
           ⟨3, "Notepad".data, "C3".data⟩,
           ⟨4, "Program Manager".data, "C4".data⟩]
          1 ["Trae".data] ["WhatsApp".data])
    ∧ tick ["Trae".data] ["WhatsApp".data]
        ⟨none, WindowCache.new 0⟩
        ⟨0, 1,
         Except.ok
           [⟨1, "Trae - project".data, "C1".data⟩,
            ⟨2, "WhatsApp".data, "C2".data⟩,
            ⟨3, "Notepad".data, "C3".data⟩,
            ⟨4, "Program Manager".data, "C4".data⟩],
         fun _ => true⟩ =
      .ok { state := ⟨some 1,
              ⟨[⟨1, "Trae - project".data, "C1".data⟩,
                ⟨2, "WhatsApp".data, "C2".data⟩,
                ⟨3, "Notepad".data, "C3".data⟩,
                ⟨4, "Program Manager".data, "C4".data⟩], 0⟩⟩,
            minimized := [⟨3, "Notepad".data, "C3".data⟩],
            minimized_count := 1, enumerated := true, classified := true } := by
  refine ⟨by decide, ?_, ?_⟩
  · exact (claim_C1
      [⟨1, "Trae - project".data, "C1".data⟩,
       ⟨2, "WhatsApp".data, "C2".data⟩,
       ⟨3, "Notepad".data, "C3".data⟩,
       ⟨4, "Program Manager".data, "C4".data⟩]
      1 ["Trae".data] ["WhatsApp".data]
      ⟨2, "WhatsApp".data, "C2".data⟩).2.2.2.1 (by decide)
  · have := (claim_C1
      [⟨1, "Trae - project".data, "C1".data⟩,
       ⟨2, "WhatsApp".data, "C2".data⟩,
       ⟨3, "Notepad".data, "C3".data⟩,
       ⟨4, "Program Manager".data, "C4".data⟩]
      1 ["Trae".data] ["WhatsApp".data]
      ⟨3, "Notepad".data, "C3".data⟩).2.2.2.2.2
      ⟨none, WindowCache.new 0⟩
      ⟨0, 1,
       Except.ok
         [⟨1, "Trae - project".data, "C1".data⟩,
          ⟨2, "WhatsApp".data, "C2".data⟩,
          ⟨3, "Notepad".data, "C3".data⟩,
          ⟨4, "Program Manager".data, "C4".data⟩],
       fun _ => true⟩
      ⟨[⟨1, "Trae - project".data, "C1".data⟩,
        ⟨2, "WhatsApp".data, "C2".data⟩,
        ⟨3, "Notepad".data, "C3".data⟩,
        ⟨4, "Program Manager".data, "C4".data⟩], 0⟩
      true ⟨1, "Trae - project".data, "C1".data⟩
      (by decide) (by decide) (by decide) (by decide)
    rw [this]
    have hw : windows_to_minimize
        [⟨1, "Trae - project".data, "C1".data⟩,
         ⟨2, "WhatsApp".data, "C2".data⟩,
         ⟨3, "Notepad".data, "C3".data⟩,
         ⟨4, "Program Manager".data, "C4".data⟩]
        1 ["Trae".data] ["WhatsApp".data] =
        [⟨3, "Notepad".data, "C3".data⟩] := by decide
    rw [hw]
    rfl

/-- Claim C4 (counterexample): two `get_windows` calls 40 ms apart — at
t = 40 and t = 80, after a refresh at t = 0 — are separated by no more
than the 50 ms validity window yet return different contents, because
the second crosses the expiry of the last refresh and re-enumerates a
changed window list. So "any two calls within the validity window return
identical contents" is false as stated. -/
theorem claim_C4_counterexample :
    ((WindowCache.new 0).get_windows 0 (Except.ok [⟨1, "A".data, []⟩]) =
      Except.ok ([⟨1, "A".data, []⟩], ⟨[⟨1, "A".data, []⟩], 0⟩, true))
    ∧ ((WindowCache.mk [⟨1, "A".data, []⟩] 0).get_windows 40
        (Except.ok [⟨2, "C".data, []⟩]) =
      Except.ok ([⟨1, "A".data, []⟩], ⟨[⟨1, "A".data, []⟩], 0⟩, false))
    ∧ ((WindowCache.mk [⟨1, "A".data, []⟩] 0).get_windows 80
        (Except.ok [⟨2, "C".data, []⟩]) =
      Except.ok ([⟨2, "C".data, []⟩], ⟨[⟨2, "C".data, []⟩], 80⟩, true))
    ∧ ((80 : Int) - 40 ≤ cache_duration)
    ∧ ([⟨1, "A".data, []⟩] ≠ ([⟨2, "C".data, []⟩] : List WindowInfo)) := by
  refine ⟨rfl, rfl, rfl, by decide, by decide⟩

/-- Claim C4 (amended): for two successive `get_windows` calls at
non-decreasing times `t1 ≤ t2` (with the cache's last update at or
before `t1`): the second call returns contents identical to the first
whenever it does not itself enumerate; among two calls separated by at
most the 50 ms validity window, at most one enumerates, and if the
first enumerated the second is a guaranteed hit returning identical
contents; two calls separated by more than the validity window always
trigger a second enumeration; and on a cache built by
`WindowCache.new`, the very first call always misses (the staleness
condition holds, forcing an enumeration). -/
theorem claim_C4_amended (c : WindowCache) (t1 t2 : Int)
    (e1 e2 : Except EnumError (List WindowInfo))
    (ws1 ws2 : List WindowInfo) (c1 c2 : WindowCache) (b1 b2 : Bool)
    (hlu : c.last_update ≤ t1) (h12 : t1 ≤ t2)
    (hc1 : c.get_windows t1 e1 = .ok (ws1, c1, b1))
    (hc2 : c1.get_windows t2 e2 = .ok (ws2, c2, b2)) :
    (b2 = false → ws2 = ws1)
    ∧ (t2 - t1 ≤ cache_duration → ¬(b1 = true ∧ b2 = true))
    ∧ (b1 = true → t2 - t1 ≤ cache_duration → b2 = false ∧ ws2 = ws1)
    ∧ (t2 - t1 > cache_duration → b2 = true)
    ∧ (∀ (t0 now : Int), t0 ≤ now →
        now - (WindowCache.new t0).last_update > cache_duration) := by
  have H1 := get_windows_ok_cases hc1
  have hwin : c1.windows = ws1 := by
    rcases H1 with ⟨_, _, hc, _⟩ | ⟨_, hws, hc, _⟩
    · rw [hc]
    · rw [hc, ← hws]
  have hlu1 : c1.last_update ≤ t1 := by
    rcases H1 with ⟨_, _, hc, _⟩ | ⟨_, _, hc, _⟩
    · rw [hc]
    · rw [hc]; exact hlu
  have H2 := get_windows_ok_cases hc2
  refine ⟨?_, ?_, ?_, ?_, ?_⟩
  · intro hb2
    rcases H2 with ⟨_, _, _, hb⟩ | ⟨_, hws, _, _⟩
    · rw [hb] at hb2; cases hb2
    · rw [hws, hwin]
  · rintro hle ⟨hb1, hb2⟩
    have h1lu : c1.last_update = t1 := by
      rcases H1 with ⟨_, _, hc, _⟩ | ⟨_, _, _, hb⟩
      · rw [hc]
      · rw [hb] at hb1; cases hb1
    rcases H2 with ⟨hgt, _, _, _⟩ | ⟨_, _, _, hb⟩
    · rw [h1lu] at hgt
      unfold cache_duration at hgt hle
      omega
    · rw [hb] at hb2; cases hb2
  · intro hb1 hle
    have h1lu : c1.last_update = t1 := by
      rcases H1 with ⟨_, _, hc, _⟩ | ⟨_, _, _, hb⟩
      · rw [hc]
      · rw [hb] at hb1; cases hb1
    rcases H2 with ⟨hgt, _, _, _⟩ | ⟨_, hws, _, hb⟩
    · rw [h1lu] at hgt
      unfold cache_duration at hgt hle
      omega
    · exact ⟨hb, by rw [hws, hwin]⟩
  · intro hgt
    rcases H2 with ⟨_, _, _, hb⟩ | ⟨hle2, _, _, _⟩
    · exact hb
    · unfold cache_duration at hgt hle2
      omega
  · intro t0 now h
    unfold WindowCache.new cache_duration
    simp
    omega

theorem claim_C4_witness :
    (false = false →
      ([⟨1, "A".data, []⟩] : List WindowInfo) = [⟨1, "A".data, []⟩])
    ∧ ((10 : Int) - 0 ≤ cache_duration → ¬(true = true ∧ false = true))
    ∧ (true = true → (10 : Int) - 0 ≤ cache_duration →
        false = false ∧
        ([⟨1, "A".data, []⟩] : List WindowInfo) = [⟨1, "A".data, []⟩])
    ∧ ((10 : Int) - 0 > cache_duration → false = true)
    ∧ (∀ (t0 now : Int), t0 ≤ now →
        now - (WindowCache.new t0).last_update > cache_duration) :=
  claim_C4_amended (WindowCache.new 0) 0 10
    (Except.ok [⟨1, "A".data, []⟩]) (Except.ok [])
    [⟨1, "A".data, []⟩] [⟨1, "A".data, []⟩]
    ⟨[⟨1, "A".data, []⟩], 0⟩ ⟨[⟨1, "A".data, []⟩], 0⟩
    true false (by decide) (by decide) (by decide) (by decide)
